/-
Verification development for the belt-surface generator
(src/Python/belt_surface_generator.py).

Modelling conventions:
* All quantities that the Python code branches on or sorts by (curve
  parameters, coordinates, tolerances, distances) are modelled as exact
  rationals (every IEEE double is a rational, and none of the claims under
  study depends on rounding).
* The bias-interpolation channel (angles and magnitudes) passes through
  `pow` with a non-integer exponent, so it is modelled over the reals with
  `Real.rpow`.
* RhinoCommon is an external geometry kernel.  Every RhinoCommon call made
  by the script (curve/plane intersection events, seam change, closest
  point, distance, surface-frame perpendicular, rotation, unitize, bezier
  validity, two-rail sweep, face-to-NURBS conversion, rebuild) is an
  uninterpreted function packaged in a `Kernel` record; the script's own
  control flow and arithmetic are embedded directly.
* Fallible operations return `Option`/`Except`; Python `None` is `none`.
-/
import Mathlib

namespace BeltGen

/-! ## Basic geometry data -/

/-- A 3d point with rational (exact double) coordinates. -/
structure PointQ where
  x : ℚ
  y : ℚ
  z : ℚ
deriving DecidableEq

/-- A 3d vector with rational coordinates. -/
structure VecQ where
  x : ℚ
  y : ℚ
  z : ℚ
deriving DecidableEq

/-- A 3d point with real coordinates (used after angle/magnitude scaling). -/
structure PointR where
  x : ℝ
  y : ℝ
  z : ℝ

/-- A 3d vector with real coordinates. -/
structure VecR where
  x : ℝ
  y : ℝ
  z : ℝ

def toR (p : PointQ) : PointR := ⟨(p.x : ℝ), (p.y : ℝ), (p.z : ℝ)⟩

def addPV (p : PointR) (v : VecR) : PointR := ⟨p.x + v.x, p.y + v.y, p.z + v.z⟩

def smulR (c : ℝ) (v : VecR) : VecR := ⟨c * v.x, c * v.y, c * v.z⟩

def negQ (v : VecQ) : VecQ := ⟨-v.x, -v.y, -v.z⟩

def dotQ (u v : VecQ) : ℚ := u.x * v.x + u.y * v.y + u.z * v.z

/-- Projection of a tangent onto the XY plane
(`rg.Vector3d(v.X, v.Y, 0)`, lines 611-612 of the source). -/
def projXY (v : VecQ) : VecQ := ⟨v.x, v.y, 0⟩

/-! ## Curves

A curve is modelled by its evaluation data.  `domain` models
`Curve.Domain`, `pointAt` models `Curve.PointAt`, `tangentAt` models
`Curve.TangentAt` (always unit length in RhinoCommon, which we do not need
to impose), `isClosed` models `Curve.IsClosed`, `isValid` models
`Curve.IsValid`, `length` models `Curve.GetLength()`. -/

structure Curve where
  domain : ℚ × ℚ
  pointAt : ℚ → PointQ
  tangentAt : ℚ → VecQ
  isClosed : Bool
  isValid : Bool
  length : ℚ

/-- `Interval.ParameterAt`: affine parameter at a normalized fraction. -/
def paramAt (d : ℚ × ℚ) (f : ℚ) : ℚ := d.1 + (d.2 - d.1) * f

/-- Assigning `curve.Domain = rg.Interval(0.0, 1.0)`: the curve is
reparameterized affinely onto `[0,1]`; tangent directions are unchanged at
corresponding parameters. -/
def setDomain01 (c : Curve) : Curve :=
  { c with
    domain := (0, 1)
    pointAt := fun t => c.pointAt (paramAt c.domain t)
    tangentAt := fun t => c.tangentAt (paramAt c.domain t) }

/-- `Curve.Reverse()`: traversal is flipped on the same domain; the tangent
at a parameter is the negated tangent of the original curve at the mirrored
parameter. -/
def reverseCurve (c : Curve) : Curve :=
  { c with
    pointAt := fun t => c.pointAt (c.domain.1 + c.domain.2 - t)
    tangentAt := fun t => negQ (c.tangentAt (c.domain.1 + c.domain.2 - t)) }

/-- `reorder_curve_to_start` (source lines 149-170): non-closed curves are
returned unchanged; otherwise the kernel's `ChangeClosedCurveSeam` is
attempted on a duplicate, keeping the original on failure. -/
def reorder_curve_to_start (changeSeam : Curve → ℚ → Option Curve)
    (curve : Curve) (start_param : ℚ) : Curve :=
  if ¬ curve.isClosed then curve
  else
    match changeSeam curve start_param with
    | some new_curve => new_curve
    | none => curve

/-! ## Stable sorting by a rational key

Python's `list.sort(key=...)` is a stable sort by the key.  We embed it as
a left-fold insertion sort, which is stable: a new element is inserted
after all elements whose key is `≤` its own. -/

def insertSorted {α : Type} (key : α → ℚ) : List α → α → List α
  | [], x => [x]
  | y :: ys, x => if key x < key y then x :: y :: ys else y :: insertSorted key ys x

def sortByKey {α : Type} (key : α → ℚ) (l : List α) : List α :=
  l.foldl (insertSorted key) []

/-! ## PlaneIntersector: `find_yz_plane_intersections` (source lines 84-146) -/

/-- One entry of the list returned by
`rg.Intersect.Intersection.CurvePlane`: a point event carries the
intersection point and curve parameter; an overlap event (curve segment
lying in the plane) has `isPoint = false`. -/
structure IntersectionEvent where
  isPoint : Bool
  pointA : PointQ
  paramA : ℚ
deriving DecidableEq

structure YZHit where
  point : PointQ
  param : ℚ
deriving DecidableEq

/-- The `{'entry': ..., 'exit': ...}` dictionary returned on success. -/
structure YZResult where
  entry : YZHit
  exit' : YZHit
deriving DecidableEq

/-- The 36 fallback sample parameters
(`for i in range(0, 360, 10): t = curve.Domain.ParameterAt(i / 360.0)`). -/
def sample_params (curve : Curve) : List ℚ :=
  (List.range 36).map (fun (i : ℕ) => paramAt curve.domain ((10 * (i : ℚ)) / 360))

/-- The candidate (point, parameter) pairs of the sampling fallback
(source lines 102-115): the 36 samples, filtered to those within
`x_threshold = 1.0` of the YZ plane; if fewer than two remain, all 36
samples are used. -/
def fallback_candidates (c : Curve) : List (PointQ × ℚ) :=
  let t_list := sample_params c
  let points := t_list.map c.pointAt
  -- x_threshold = 1.0 : within 1 unit of the YZ plane
  let yz_points := (points.zip t_list).filter (fun pr => decide (|pr.1.x| < 1))
  if yz_points.length < 2 then points.zip t_list else yz_points

/-- `find_yz_plane_intersections(curve)`.  `curvePlane` is the kernel's
curve/plane intersection for the fixed YZ plane (X = 0); the Python code
obtains it via `rg.Intersect.Intersection.CurvePlane(curve, plane, tol)`.
Entry is the most positive-Y hit, exit the most negative-Y hit. -/
def find_yz_plane_intersections (curvePlane : Curve → List IntersectionEvent)
    (curve : Option Curve) : Option YZResult :=
  match curve with
  | none => none
  | some c =>
    let intersections := curvePlane c
    if intersections.isEmpty then
      -- Fallback: find points closest to the YZ plane (X=0).
      let yz_points := fallback_candidates c
      let sorted := sortByKey (fun pr => pr.1.y) yz_points
      match sorted.getLast?, sorted.head? with
      | some e, some x => some ⟨⟨e.1, e.2⟩, ⟨x.1, x.2⟩⟩
      | _, _ => none
    else
      let int_points := (intersections.filter (fun ev => ev.isPoint)).map
        (fun ev => (ev.pointA, ev.paramA))
      if int_points.length = 0 then none
      else
        let sorted := sortByKey (fun pr => pr.1.y) int_points
        match sorted.getLast?, sorted.head? with
        | some e, some x => some ⟨⟨e.1, e.2⟩, ⟨x.1, x.2⟩⟩
        | _, _ => none

/-! ## RailAligner: step 3.5 of `generate_belt_surface` (source lines 601-634)

`Vector3d.Unitize` rescales a nonzero vector by a strictly positive factor
and leaves the zero vector unchanged, so the sign of the dot product of
the two unitized XY-projections equals the sign of the dot product of the
raw projections; the embedded direction test is therefore performed on the
raw dot product, which is exact. -/

def align_rails (dome_rail bowl_rail : Curve) : Curve × Curve × Bool :=
  let dome_tangent_xy := projXY (dome_rail.tangentAt dome_rail.domain.1)
  let bowl_tangent_xy := projXY (bowl_rail.tangentAt bowl_rail.domain.1)
  if dotQ dome_tangent_xy bowl_tangent_xy < 0 then
    -- Curves travel in opposite directions: reverse the bowl rail and
    -- re-assign its domain to [0,1] (source lines 620-627).
    (dome_rail, setDomain01 (reverseCurve bowl_rail), true)
  else
    (dome_rail, bowl_rail, false)

/-- The rail-alignment stage: both rails are reparameterized to `[0,1]`
(source lines 582-583) and then the direction check and conditional
reversal are applied. -/
def rail_align_stage (dome_rail bowl_rail : Curve) : Curve × Curve × Bool :=
  align_rails (setDomain01 dome_rail) (setDomain01 bowl_rail)

/-! ## Bias interpolation: `interpolate_value` (source lines 302-320) -/

/-- The interpolation weight computed by `interpolate_value`:
`t ** (1/(2b+0.01))` for `b < 0.5`, `1 - (1-t) ** (1/(2(1-b)+0.01))` for
`b > 0.5`, and `t` for `b = 0.5`. -/
noncomputable def interp_weight (t bias : ℝ) : ℝ :=
  if bias < 0.5 then
    t ^ ((1 : ℝ) / (2 * bias + 0.01))
  else if bias > 0.5 then
    1 - (1 - t) ^ ((1 : ℝ) / (2 * (1 - bias) + 0.01))
  else
    t

/-- `interpolate_value(val_start, val_end, t, bias)`:
returns `val_start + (val_end - val_start) * weight`. -/
noncomputable def interpolate_value (val_start val_end t bias : ℝ) : ℝ :=
  val_start + (val_end - val_start) * interp_weight t bias

/-! ## ControlPointPlanner (source lines 327-510) -/

/-- The per-point angle/magnitude bundle for one named control point
(the flat `*_angle_dome, *_angle_bowl, *_mag_dome, *_mag_bowl` arguments
of `build_primary_control_points`, grouped for readability). -/
structure PointParams where
  angle_dome : ℝ
  angle_bowl : ℝ
  mag_dome : ℝ
  mag_bowl : ℝ

/-- `ControlPointDefinition.__init__` (source lines 327-340); the resolved
points/vectors are carried separately by `ResolvedCP` below. -/
structure ControlPointDefinition where
  name : String
  param : ℚ
  angle_dome : ℝ
  angle_bowl : ℝ
  mag_dome : ℝ
  mag_bowl : ℝ

def mkCPD (name : String) (param : ℚ) (p : PointParams) : ControlPointDefinition :=
  ⟨name, param, p.angle_dome, p.angle_bowl, p.mag_dome, p.mag_bowl⟩

/-- `build_primary_control_points` (source lines 343-403): entry at 0.0,
optional A/B scaled into the first half, exit at `exit_param`, optional
mirrors at the same relative position of the second half, sorted by
`param`. -/
def build_primary_control_points (exit_param A_position B_position : ℚ)
    (include_A include_B : Bool)
    (entryP AP BP exitP : PointParams) : List ControlPointDefinition :=
  let control_points := [mkCPD "entry" 0 entryP]
  let control_points := if include_A then
      control_points ++ [mkCPD "A" (A_position * exit_param) AP]
    else control_points
  let control_points := if include_B then
      control_points ++ [mkCPD "B" (B_position * exit_param) BP]
    else control_points
  let control_points := control_points ++ [mkCPD "exit" exit_param exitP]
  let control_points := if include_B then
      control_points ++ [mkCPD "B_mirror" (exit_param + (1 - exit_param) * B_position) BP]
    else control_points
  let control_points := if include_A then
      control_points ++ [mkCPD "A_mirror" (exit_param + (1 - exit_param) * A_position) AP]
    else control_points
  sortByKey (fun cp => cp.param) control_points

/-- `build_intermediate_control_points` (source lines 406-459).  For
`i = 1..num_intermediates`, `t = i/(num_intermediates+1)`; when the pair
wraps (`cp2.param < cp1.param`) the parameter advances from `cp1.param`
toward 1.0 and is clamped into `[cp1.param, 1]`; angles and magnitudes are
bias-interpolated. -/
noncomputable def build_intermediate_control_points
    (cp1 cp2 : ControlPointDefinition) (num_intermediates : ℕ) (bias : ℝ) :
    List ControlPointDefinition :=
  let wrapping : Bool := decide (cp2.param < cp1.param)
  (List.range num_intermediates).map (fun j =>
    let i : ℕ := j + 1
    let t : ℚ := (i : ℚ) / ((num_intermediates : ℚ) + 1)
    let param : ℚ :=
      if wrapping then
        let distance_to_1 := 1 - cp1.param
        let p := cp1.param + distance_to_1 * t
        -- Clamp (source lines 439-442)
        if 1 < p then 1 else if p < cp1.param then cp1.param else p
      else
        cp1.param + (cp2.param - cp1.param) * t
    { name := cp1.name ++ "_to_" ++ cp2.name ++ "_" ++ toString i
      param := param
      angle_dome := interpolate_value cp1.angle_dome cp2.angle_dome (t : ℝ) bias
      angle_bowl := interpolate_value cp1.angle_bowl cp2.angle_bowl (t : ℝ) bias
      mag_dome := interpolate_value cp1.mag_dome cp2.mag_dome (t : ℝ) bias
      mag_bowl := interpolate_value cp1.mag_bowl cp2.mag_bowl (t : ℝ) bias })

/-- The consecutive pairs `(primary[i], primary[(i+1) % len])` iterated by
`build_all_control_points` (source lines 475-480). -/
def pairsWrap {α : Type} : List α → List (α × α)
  | [] => []
  | x :: xs => (x :: xs).zip (xs ++ [x])

/-- The primary + intermediate control points, sorted by `param`
(`build_all_control_points` up to and including line 483, before the
closure guarantee). -/
noncomputable def build_all_cps_sorted (primary_cps : List ControlPointDefinition)
    (num_intermediates : ℕ) (bias : ℝ) : List ControlPointDefinition :=
  let intermediates := ((pairsWrap primary_cps).map
    (fun pr => build_intermediate_control_points pr.1 pr.2 num_intermediates bias)).flatten
  sortByKey (fun cp => cp.param) (primary_cps ++ intermediates)

/-- `build_all_control_points` (source lines 462-510): sorted primaries and
intermediates, then the closure guarantee: if some point sits at
`|param| < 1e-6` (the entry) and no point sits within `1e-6` of 1.0,
append a `closure` clone of the entry at `param = 1.0` and re-sort. -/
noncomputable def build_all_control_points (primary_cps : List ControlPointDefinition)
    (num_intermediates : ℕ) (bias : ℝ) : List ControlPointDefinition :=
  let all_cps := build_all_cps_sorted primary_cps num_intermediates bias
  match all_cps.find? (fun cp => decide (|cp.param| < (1/1000000 : ℚ))) with
  | none => all_cps
  | some entry_cp =>
    if all_cps.any (fun cp => decide (|cp.param - 1| < (1/1000000 : ℚ))) then all_cps
    else
      sortByKey (fun cp => cp.param)
        (all_cps ++ [⟨"closure", 1, entry_cp.angle_dome, entry_cp.angle_bowl,
          entry_cp.mag_dome, entry_cp.mag_bowl⟩])

/-! ## RailExtractor: `extract_trim_curve` (source lines 49-81)

A trimmed input surface is modelled by its face's loop list: each loop has
a `BrepLoopType` tag and a (possibly failing) 3d projection
`Loop.To3dCurve()`. -/

inductive LoopKind
  | outer
  | inner
deriving DecidableEq

structure BrepLoop where
  kind : LoopKind
  to3d : Option Curve

structure BrepSurface where
  loops : List BrepLoop

/-- `extract_trim_curve(brep_surface)`: take the first loop tagged outer;
if none is tagged, fall back to the loop with the longest 3d curve
(starting from `max_length = 0`); return its 3d curve. -/
def extract_trim_curve (brep_surface : Option BrepSurface) : Option Curve :=
  match brep_surface with
  | none => none
  | some srf =>
    match srf.loops.find? (fun l => decide (l.kind = LoopKind.outer)) with
    | some outer_loop => outer_loop.to3d
    | none =>
      let best := srf.loops.foldl (fun (acc : ℚ × Option BrepLoop) l =>
        match l.to3d with
        | some crv => if acc.1 < crv.length then (crv.length, some l) else acc
        | none => acc) (0, none)
      match best.2 with
      | some outer_loop => outer_loop.to3d
      | none => none

/-! ## The geometry kernel and the run inputs -/

structure Surface where
  id : ℕ
  isValid : Bool

structure SweepFace where
  id : ℕ

structure SweepBrep where
  faces : List SweepFace

/-- A cross-section bezier, identified by its four control points
(`create_cubic_bezier(P0, P1, P2, P3)`). -/
structure CrossSection where
  P0 : PointR
  P1 : PointR
  P2 : PointR
  P3 : PointR

/-- The RhinoCommon operations invoked by `generate_belt_surface`,
packaged as an uninterpreted record (see the header comment):
`tol` is `sc.doc.ModelAbsoluteTolerance`; `curvePlane` is
`Intersection.CurvePlane` against the YZ plane; `changeSeam` is
`ChangeClosedCurveSeam`; `closestPoint` is `Curve.ClosestPoint`;
`distance`/`distanceR` are `Point3d.DistanceTo`; `perp` abstracts
`get_perpendicular_to_trim` (source lines 173-230, a chain of face kernel
queries) with `true` selecting the dome side; `unitize`/`unitizeR` are
`Vector3d.Unitize`; `rotate` is `rotate_vector` (a kernel
`Transform.Rotation` applied to a vector); `bezierValid` is
`BezierCurve → NurbsCurve` construction plus `IsValid`; `sweep` is
`Brep.CreateFromSweep` (two rails, sections, closed flag, tolerance);
`toNurbs` is `BrepFace.ToNurbsSurface`; `rebuild` is `Surface.Rebuild`
inside `try/except` (`Except.error` = raised exception, `.ok none` =
null result). -/
structure Kernel where
  tol : ℚ
  curvePlane : Curve → List IntersectionEvent
  changeSeam : Curve → ℚ → Option Curve
  closestPoint : Curve → PointQ → Option ℚ
  distance : PointQ → PointQ → ℚ
  distanceR : PointR → PointR → ℚ
  perp : Bool → Curve → ℚ → Option VecQ
  unitize : VecQ → VecQ
  rotate : VecQ → ℝ → VecQ → VecR
  unitizeR : VecR → VecR
  bezierValid : CrossSection → Bool
  sweep : Curve → Curve → List CrossSection → Bool → ℚ → List SweepBrep
  toNurbs : SweepFace → Option Surface
  rebuild : Surface → Except Unit (Option Surface)

/-- The scalar/boolean inputs of `generate_belt_surface` (the flat Python
argument list, with the sixteen angle/magnitude arguments grouped into the
four per-point bundles). -/
structure Args where
  A_position : ℚ
  B_position : ℚ
  include_A : Bool
  include_B : Bool
  intermediate_sections : ℕ
  transition_bias : ℝ
  rebuild_tolerance : ℚ
  entryP : PointParams
  AP : PointParams
  BP : PointParams
  exitP : PointParams

/-- The tuple `(belt_surface, warnings, debug_curves, debug_vectors)`. -/
structure BeltResult where
  surface : Option Surface
  warnings : List String
  debug_curves : List CrossSection
  debug_vectors : List (PointR × PointR)

/-! ## FrameVectorComputer: step 6 of `generate_belt_surface`
(source lines 674-772) -/

/-- A control point after the step-6 loop body ran for it: the mutated
`dome_point`, `bowl_point`, `dome_vector`, `bowl_vector` fields. -/
structure ResolvedCP where
  cp : ControlPointDefinition
  dome_point : PointQ
  bowl_point : Option PointQ
  dome_vector : Option VecR
  bowl_vector : Option VecR

/-- One iteration of the step-6 loop for control point `cp`: resolve the
dome point at `cp.param`; resolve the bowl point (entry/exit/closure use
the bowl rail's own landmark parameters, every other name uses the
kernel's closest point, `continue`-ing with an error warning on failure);
guard zero dome-bowl distance; build the two offset vectors (kernel
perpendicular, rotated about the rail tangent, unitized, scaled by
`mag * distance`, with the documented vertical fallback); emit the debug
vector lines.  Returns the resolved point, its warnings, its debug
lines. -/
def resolve_control_point (k : Kernel) (dome_rail bowl_rail : Curve)
    (bowl_exit_param : ℚ) (cp : ControlPointDefinition) :
    ResolvedCP × List String × List (PointR × PointR) :=
  let dome_t := paramAt dome_rail.domain cp.param
  let dome_point := dome_rail.pointAt dome_t
  let bowl_t? : Option ℚ :=
    if cp.name = "entry" then some (paramAt bowl_rail.domain 0)
    else if cp.name = "exit" then some (paramAt bowl_rail.domain bowl_exit_param)
    else if cp.name = "closure" then some (paramAt bowl_rail.domain 1)
    else k.closestPoint bowl_rail dome_point
  match bowl_t? with
  | none =>
    -- `continue`: the control point keeps no bowl point and no vectors.
    (⟨cp, dome_point, none, none, none⟩,
      ["ERROR: Could not find closest bowl point for " ++ cp.name], [])
  | some bowl_t =>
    let bowl_point := bowl_rail.pointAt bowl_t
    let ws_dbg : List String :=
      if cp.name = "entry" then
        ["DEBUG: Entry dome point X=" ++ toString dome_point.x ++ ", Y=" ++
          toString dome_point.y ++ " (X~0, Y should be positive)",
         "DEBUG: Entry bowl point X=" ++ toString bowl_point.x ++ ", Y=" ++
          toString bowl_point.y ++ " (X~0, Y should be positive)"]
      else if cp.name = "exit" then
        ["DEBUG: Exit dome point X=" ++ toString dome_point.x ++ ", Y=" ++
          toString dome_point.y ++ " (X~0, Y should be negative)",
         "DEBUG: Exit bowl point X=" ++ toString bowl_point.x ++ ", Y=" ++
          toString bowl_point.y ++ " (X~0, Y should be negative)"]
      else if cp.name = "closure" then
        ["DEBUG: Closure dome point X=" ++ toString dome_point.x ++ ", Y=" ++
          toString dome_point.y ++ " (should match Entry)",
         "DEBUG: Closure bowl point X=" ++ toString bowl_point.x ++ ", Y=" ++
          toString bowl_point.y ++ " (should match Entry)"]
      else []
    let distance0 := k.distance dome_point bowl_point
    let ws_zero : List String :=
      if distance0 < k.tol then ["WARNING: Zero distance at " ++ cp.name] else []
    let distance : ℚ := if distance0 < k.tol then 1 else distance0
    let dome_pair : VecR × List String :=
      match k.perp true dome_rail dome_t with
      | some dome_perpendicular =>
        let dome_curve_tangent := k.unitize (dome_rail.tangentAt dome_t)
        let dome_vector := k.unitizeR (k.rotate dome_perpendicular cp.angle_dome dome_curve_tangent)
        (smulR (cp.mag_dome * (distance : ℝ)) dome_vector, [])
      | none =>
        (⟨0, 0, (distance : ℝ) * 0.3⟩,
          ["WARNING: Could not calculate dome vector for " ++ cp.name])
    let bowl_pair : VecR × List String :=
      match k.perp false bowl_rail bowl_t with
      | some bowl_perpendicular =>
        let bowl_curve_tangent := k.unitize (bowl_rail.tangentAt bowl_t)
        let bowl_vector := k.unitizeR (k.rotate bowl_perpendicular cp.angle_bowl bowl_curve_tangent)
        (smulR (cp.mag_bowl * (distance : ℝ)) bowl_vector, [])
      | none =>
        (⟨0, 0, -((distance : ℝ) * 0.3)⟩,
          ["WARNING: Could not calculate bowl vector for " ++ cp.name])
    (⟨cp, dome_point, some bowl_point, some dome_pair.1, some bowl_pair.1⟩,
      ws_dbg ++ ws_zero ++ dome_pair.2 ++ bowl_pair.2,
      [(toR dome_point, addPV (toR dome_point) dome_pair.1),
       (toR bowl_point, addPV (toR bowl_point) bowl_pair.1)])

/-- The whole step-6 loop: each iteration only mutates its own control
point and appends to the shared warning / debug-vector lists. -/
def resolve_all (k : Kernel) (dome_rail bowl_rail : Curve) (bowl_exit_param : ℚ)
    (all_cps : List ControlPointDefinition) :
    List ResolvedCP × List String × List (PointR × PointR) :=
  let rs := all_cps.map (resolve_control_point k dome_rail bowl_rail bowl_exit_param)
  (rs.map (fun r => r.1), (rs.map (fun r => r.2.1)).flatten, (rs.map (fun r => r.2.2)).flatten)

/-! ## CrossSectionBuilder: step 7 of `generate_belt_surface`
(source lines 778-794) -/

/-- The guard `if cp.dome_point and cp.bowl_point and cp.dome_vector and
cp.bowl_vector` plus the four bezier control points. -/
def section_of (r : ResolvedCP) : Option CrossSection :=
  match r.bowl_point, r.dome_vector, r.bowl_vector with
  | some bowl_point, some dome_vector, some bowl_vector =>
    some ⟨toR r.dome_point, addPV (toR r.dome_point) dome_vector,
      addPV (toR bowl_point) bowl_vector, toR bowl_point⟩
  | _, _, _ => none

/-- The step-7 loop: skip control points missing a resolved field, check
each built bezier's validity, and abort the run on the first invalid one
(the error carries the error message and the sections built so far, which
the source has already appended to `debug_curves`). -/
def build_sections (k : Kernel) :
    List ResolvedCP → Except (String × List CrossSection) (List CrossSection)
  | [] => .ok []
  | r :: rs =>
    match section_of r with
    | none => build_sections k rs
    | some bezier =>
      if k.bezierValid bezier then
        match build_sections k rs with
        | .ok sections => .ok (bezier :: sections)
        | .error (msg, built) => .error (msg, bezier :: built)
      else
        .error ("ERROR: Invalid bezier curve at " ++ r.cp.name, [])

/-! ## SurfaceLofter: steps 7.5-9 of `generate_belt_surface`
(source lines 796-879) -/

/-- Duplicate-closure trimming, the two-rail sweep, face extraction and the
optional rebuild.  Returns the surface (or `none`) and the warnings this
stage appends. -/
def sweep_stage (k : Kernel) (a : Args) (dome_rail bowl_rail : Curve)
    (cross_sections : List CrossSection) : Option Surface × List String :=
  let ws := ["DEBUG: Created " ++ toString cross_sections.length ++ " cross-section curves"]
  let trimmed : List CrossSection × List String :=
    if 1 < cross_sections.length then
      match cross_sections.head?, cross_sections.getLast? with
      | some first_curve, some last_curve =>
        if k.distanceR first_curve.P0 last_curve.P0 < k.tol * 10 then
          (cross_sections.dropLast,
            ws ++ ["DEBUG: Removed duplicate closure curve, using " ++
              toString cross_sections.dropLast.length ++ " sections for sweep"])
        else
          (cross_sections,
            ws ++ ["DEBUG: No duplicate detected, using all " ++
              toString cross_sections.length ++ " sections"])
      | _, _ => (cross_sections, ws)
    else (cross_sections, ws)
  let cross_sections_for_sweep := trimmed.1
  let ws := trimmed.2
  match k.sweep dome_rail bowl_rail cross_sections_for_sweep true k.tol with
  | [] =>
    (none, ws ++ ["ERROR: Sweep 2 Rails failed",
      "DEBUG: Rail 1 IsValid = " ++ toString dome_rail.isValid ++
        ", IsClosed = " ++ toString dome_rail.isClosed,
      "DEBUG: Rail 2 IsValid = " ++ toString bowl_rail.isValid ++
        ", IsClosed = " ++ toString bowl_rail.isClosed,
      "DEBUG: Number of cross-sections used = " ++ toString cross_sections_for_sweep.length,
      "DEBUG: First section valid = " ++
        (match cross_sections_for_sweep.head? with
          | some s => toString (k.bezierValid s)
          | none => "N/A"),
      "DEBUG: Last section valid = " ++
        (match cross_sections_for_sweep.getLast? with
          | some s => toString (k.bezierValid s)
          | none => "N/A")])
  | brep :: _ =>
    match brep.faces with
    | [] => (none, ws ++ ["ERROR: Sweep result has no faces"])
    | f :: _ =>
      match k.toNurbs f with
      | none => (none, ws ++ ["ERROR: Failed to extract NURBS surface from sweep"])
      | some belt_surface =>
        let ws := ws ++ ["SUCCESS: Surface created, IsValid = " ++ toString belt_surface.isValid]
        if 0 < a.rebuild_tolerance then
          match k.rebuild belt_surface with
          | .error _ => (some belt_surface, ws ++ ["WARNING: Surface rebuild failed"])
          | .ok none => (some belt_surface, ws)
          | .ok (some rebuilt) => (some rebuilt, ws ++ ["DEBUG: Surface rebuilt successfully"])
        else (some belt_surface, ws)

/-- Steps 6-9 of the pipeline, from the finished control-point list on:
resolve every control point, build the cross-sections (aborting the run on
an invalid bezier), then sweep. -/
noncomputable def belt_from_cps (k : Kernel) (a : Args) (dome_rail bowl_rail : Curve)
    (bowl_exit_param : ℚ) (all_cps : List ControlPointDefinition)
    (ws : List String) : BeltResult :=
  let resolved := resolve_all k dome_rail bowl_rail bowl_exit_param all_cps
  match build_sections k resolved.1 with
  | .error me => ⟨none, ws ++ resolved.2.1 ++ [me.1], me.2, resolved.2.2⟩
  | .ok cross_sections =>
    let sw := sweep_stage k a dome_rail bowl_rail cross_sections
    ⟨sw.1, ws ++ resolved.2.1 ++ sw.2, cross_sections, resolved.2.2⟩

/-! ## The main algorithm: `generate_belt_surface` (source lines 517-879) -/

noncomputable def generate_belt_surface (k : Kernel) (dome bowl : Option BrepSurface)
    (a : Args) : BeltResult :=
  -- STEP 1: extract edge curves (rails)
  match extract_trim_curve dome, extract_trim_curve bowl with
  | some dome_edge, some bowl_edge =>
    let ws := ["DEBUG: Dome edge length = " ++ toString dome_edge.length,
      "DEBUG: Bowl edge length = " ++ toString bowl_edge.length,
      "DEBUG: Length ratio (bowl/dome) = " ++ toString (bowl_edge.length / dome_edge.length)]
    -- STEP 2: find entry points on rails (YZ plane intersections)
    match find_yz_plane_intersections k.curvePlane (some dome_edge),
        find_yz_plane_intersections k.curvePlane (some bowl_edge) with
    | some dome_intersections, some bowl_intersections =>
      let dome_entry_param := dome_intersections.entry.param
      let bowl_entry_param := bowl_intersections.entry.param
      let ws := ws ++ ["DEBUG: Dome entry param = " ++ toString dome_entry_param,
        "DEBUG: Bowl entry param = " ++ toString bowl_entry_param]
      -- STEP 3: reorder rails to start at entry points, domains to [0,1]
      let dome_rail := setDomain01 (reorder_curve_to_start k.changeSeam dome_edge dome_entry_param)
      let bowl_rail := setDomain01 (reorder_curve_to_start k.changeSeam bowl_edge bowl_entry_param)
      match find_yz_plane_intersections k.curvePlane (some dome_rail),
          find_yz_plane_intersections k.curvePlane (some bowl_rail) with
      | some dome_intersections_reordered, some bowl_intersections_reordered =>
        let dome_exit_param := dome_intersections_reordered.exit'.param
        let bowl_exit_param := bowl_intersections_reordered.exit'.param
        let ws := ws ++
          ["DEBUG: Dome exit param (after reorder) = " ++ toString dome_exit_param,
           "DEBUG: Bowl exit param (after reorder) = " ++ toString bowl_exit_param]
        -- STEP 3.5: align curve directions
        let aligned := align_rails dome_rail bowl_rail
        let dome_rail := aligned.1
        let bowl_rail := aligned.2.1
        let after_align : ℚ × List String :=
          if aligned.2.2 then
            -- reversal invalidates the previously found exit: re-intersect
            match find_yz_plane_intersections k.curvePlane (some bowl_rail) with
            | some bowl_int2 =>
              (bowl_int2.exit'.param,
                ws ++ ["DEBUG: Bowl rail reversed to match dome rail direction",
                  "DEBUG: Bowl exit param (after reverse) = " ++ toString bowl_int2.exit'.param])
            | none =>
              (bowl_exit_param,
                ws ++ ["DEBUG: Bowl rail reversed to match dome rail direction"])
          else
            (bowl_exit_param, ws ++ ["DEBUG: Rails already travel in same direction"])
        let bowl_exit_param := after_align.1
        let ws := after_align.2 ++ ["DEBUG: Rails reordered and reparameterized to [0, 1]"]
        -- STEP 4: primary control points
        let primary_cps := build_primary_control_points dome_exit_param
          a.A_position a.B_position a.include_A a.include_B a.entryP a.AP a.BP a.exitP
        let ws := ws ++
          ["DEBUG: Created " ++ toString primary_cps.length ++ " primary control points"]
        -- STEP 5: all control points (primary + intermediates)
        let all_cps := build_all_control_points primary_cps
          a.intermediate_sections a.transition_bias
        let ws := ws ++
          ["DEBUG: Total control points (with intermediates) = " ++ toString all_cps.length]
        let ws := ws ++
          (if all_cps.isEmpty then []
           else
            let params := all_cps.map (fun cp => cp.param)
            ["DEBUG: Control point param range: " ++
              toString (params.foldl min (params.headD 0)) ++ " to " ++
              toString (params.foldl max (params.headD 0)),
             "DEBUG: Closure point at 1.0 exists: " ++
              toString (all_cps.any (fun cp => decide (|cp.param - 1| < (1/1000000 : ℚ))))])
        -- STEPS 6-9
        belt_from_cps k a dome_rail bowl_rail bowl_exit_param all_cps ws
      | _, _ =>
        ⟨none, ws ++ ["ERROR: Could not find YZ plane exit intersections after reordering"],
          [], []⟩
    | _, _ => ⟨none, ws ++ ["ERROR: Could not find YZ plane intersections"], [], []⟩
  | _, _ => ⟨none, ["ERROR: Could not extract trim curves from surfaces"], [], []⟩

/-! ## Concrete instances used to exercise the theorems -/

/-- "`s` starts with `p`" for warning strings. -/
def strHasPrefix (p s : String) : Prop := ∃ r : List Char, s.data = p.data ++ r

/-- A closed unit-domain curve lying in the plane X = 0. -/
def sampleCurve : Curve :=
  ⟨(0, 1), fun t => ⟨0, t, 0⟩, fun _ => ⟨0, 1, 0⟩, true, true, 1⟩

/-- A kernel curve/plane answer consisting of one overlap event
(`IsPoint = false`), as reported when the curve lies inside the plane. -/
def overlapEvents : Curve → List IntersectionEvent := fun _ => [⟨false, ⟨0, 0, 0⟩, 0⟩]

/-- A rail whose start tangent points along +Y. -/
def domeRailW : Curve :=
  ⟨(0, 1), fun t => ⟨t, 0, 0⟩, fun _ => ⟨0, 1, 0⟩, true, true, 1⟩

/-- A rail whose start tangent points along -Y (opposite traversal). -/
def bowlRailW : Curve :=
  ⟨(0, 1), fun t => ⟨t, 0, 0⟩, fun _ => ⟨0, -1, 0⟩, true, true, 1⟩

/-- Neutral angle/magnitude bundle. -/
noncomputable def pp0 : PointParams := ⟨0, 0, 1/2, 1/2⟩

/-- A concrete non-landmark control point. -/
noncomputable def cpA : ControlPointDefinition := ⟨"A", 1/2, 0, 0, 1/2, 1/2⟩

/-- A kernel whose closest-point query fails and whose sweep is empty. -/
def kernel0 : Kernel where
  tol := 1/1000
  curvePlane := fun _ => []
  changeSeam := fun _ _ => none
  closestPoint := fun _ _ => none
  distance := fun _ _ => 1
  distanceR := fun _ _ => 1
  perp := fun _ _ _ => none
  unitize := id
  rotate := fun _ _ _ => ⟨0, 0, 0⟩
  unitizeR := id
  bezierValid := fun _ => true
  sweep := fun _ _ _ _ _ => []
  toNurbs := fun _ => none
  rebuild := fun _ => .ok none

/-- Default-like run inputs. -/
noncomputable def args0 : Args := ⟨33/100, 66/100, true, true, 3, 1/2, 1/100, pp0, pp0, pp0, pp0⟩

/-- A concrete primary list with an entry at param 0. -/
noncomputable def primaryW : List ControlPointDefinition :=
  [mkCPD "entry" 0 pp0, mkCPD "exit" (2/5) pp0]

/-! # Theorems -/

/-! ## Stable-sort infrastructure lemmas -/

theorem mem_insertSorted {α : Type} (key : α → ℚ) (l : List α) (x a : α) :
    a ∈ insertSorted key l x ↔ a = x ∨ a ∈ l := by
  induction l with
  | nil => simp [insertSorted]
  | cons y ys ih =>
    unfold insertSorted
    split
    · simp [List.mem_cons]
    · simp only [List.mem_cons, ih]
      tauto

theorem pairwise_insertSorted {α : Type} (key : α → ℚ) (l : List α) (x : α)
    (h : l.Pairwise (fun a b => key a ≤ key b)) :
    (insertSorted key l x).Pairwise (fun a b => key a ≤ key b) := by
  induction l with
  | nil => simp [insertSorted]
  | cons y ys ih =>
    rw [List.pairwise_cons] at h
    obtain ⟨hy, hys⟩ := h
    unfold insertSorted
    split
    · rename_i hlt
      refine List.Pairwise.cons ?_ (List.Pairwise.cons hy hys)
      intro b hb
      rcases List.mem_cons.mp hb with rfl | hb
      · exact le_of_lt hlt
      · exact le_trans (le_of_lt hlt) (hy b hb)
    · rename_i hge
      refine List.Pairwise.cons ?_ (ih hys)
      intro b hb
      rcases (mem_insertSorted key ys x b).mp hb with rfl | hb
      · exact not_lt.mp hge
      · exact hy b hb

theorem length_insertSorted {α : Type} (key : α → ℚ) (l : List α) (x : α) :
    (insertSorted key l x).length = l.length + 1 := by
  induction l with
  | nil => simp [insertSorted]
  | cons y ys ih =>
    unfold insertSorted
    split
    · simp
    · simp [ih]

theorem mem_foldl_insertSorted {α : Type} (key : α → ℚ) (l acc : List α) (a : α) :
    a ∈ l.foldl (insertSorted key) acc ↔ a ∈ acc ∨ a ∈ l := by
  induction l generalizing acc with
  | nil => simp
  | cons x xs ih =>
    rw [List.foldl_cons, ih, mem_insertSorted]
    simp only [List.mem_cons]
    tauto

theorem mem_sortByKey {α : Type} (key : α → ℚ) (l : List α) (a : α) :
    a ∈ sortByKey key l ↔ a ∈ l := by
  unfold sortByKey
  rw [mem_foldl_insertSorted]
  simp

theorem insertSorted_nil {α : Type} (key : α → ℚ) (x : α) :
    insertSorted key [] x = [x] := rfl

theorem insertSorted_cons {α : Type} (key : α → ℚ) (y : α) (ys : List α) (x : α) :
    insertSorted key (y :: ys) x =
      if key x < key y then x :: y :: ys else y :: insertSorted key ys x := rfl

theorem pairwise_foldl_insertSorted {α : Type} (key : α → ℚ) (l acc : List α)
    (hacc : acc.Pairwise (fun a b => key a ≤ key b)) :
    (l.foldl (insertSorted key) acc).Pairwise (fun a b => key a ≤ key b) := by
  induction l generalizing acc with
  | nil => simpa
  | cons x xs ih => exact ih _ (pairwise_insertSorted key acc x hacc)

theorem pairwise_sortByKey {α : Type} (key : α → ℚ) (l : List α) :
    (sortByKey key l).Pairwise (fun a b => key a ≤ key b) :=
  pairwise_foldl_insertSorted key l [] List.Pairwise.nil

theorem length_foldl_insertSorted {α : Type} (key : α → ℚ) (l acc : List α) :
    (l.foldl (insertSorted key) acc).length = acc.length + l.length := by
  induction l generalizing acc with
  | nil => simp
  | cons x xs ih =>
    rw [List.foldl_cons, ih, length_insertSorted]
    simp only [List.length_cons]
    omega

theorem length_sortByKey {α : Type} (key : α → ℚ) (l : List α) :
    (sortByKey key l).length = l.length := by
  unfold sortByKey
  rw [length_foldl_insertSorted]
  simp

/-! ## Bias-interpolation lemmas -/

theorem interp_weight_at_zero (b : ℝ) (hb0 : 0 < b) (hb1 : b < 1) :
    interp_weight 0 b = 0 := by
  unfold interp_weight
  split_ifs with h1 h2
  · exact Real.zero_rpow (ne_of_gt (one_div_pos.mpr (by linarith)))
  · simp [Real.one_rpow]
  · rfl

theorem interp_weight_at_one (b : ℝ) (hb0 : 0 < b) (hb1 : b < 1) :
    interp_weight 1 b = 1 := by
  unfold interp_weight
  split_ifs with h1 h2
  · exact Real.one_rpow _
  · rw [sub_self, Real.zero_rpow (ne_of_gt (one_div_pos.mpr (by linarith)))]
    ring
  · rfl

/-- Claim C5: for every pair of values `v0`, `v1` and every bias strictly
between 0 and 1, the bias interpolation returns exactly `v0` at `t = 0`
and exactly `v1` at `t = 1`. -/
theorem interpolate_value_boundary_exact (v0 v1 b : ℝ) (hb0 : 0 < b) (hb1 : b < 1) :
    interpolate_value v0 v1 0 b = v0 ∧ interpolate_value v0 v1 1 b = v1 := by
  unfold interpolate_value
  rw [interp_weight_at_zero b hb0 hb1, interp_weight_at_one b hb0 hb1]
  constructor <;> ring

/-- Witness for C5 at `v0 = 2`, `v1 = 7`, `b = 1/4`. -/
theorem interpolate_value_boundary_exact_witness :
    interpolate_value 2 7 0 (1/4) = 2 ∧ interpolate_value 2 7 1 (1/4) = 7 :=
  interpolate_value_boundary_exact 2 7 (1/4) (by norm_num) (by norm_num)

/-- Claim C9: for `t ∈ [0,1]` and `b ∈ [0,1]` (extremes included) the
interpolation weight lies in `[0,1]`, hence the returned value lies
between `min v0 v1` and `max v0 v1`, and both guarded denominators are
strictly positive (no division by zero). -/
theorem interpolate_value_weight_bounded (v0 v1 t b : ℝ)
    (ht0 : 0 ≤ t) (ht1 : t ≤ 1) (hb0 : 0 ≤ b) (hb1 : b ≤ 1) :
    (0 ≤ interp_weight t b ∧ interp_weight t b ≤ 1) ∧
    min v0 v1 ≤ interpolate_value v0 v1 t b ∧
    interpolate_value v0 v1 t b ≤ max v0 v1 ∧
    0 < 2 * b + 0.01 ∧ 0 < 2 * (1 - b) + 0.01 := by
  have hw : 0 ≤ interp_weight t b ∧ interp_weight t b ≤ 1 := by
    unfold interp_weight
    split_ifs with h1 h2
    · have hden : (0:ℝ) < 2 * b + 0.01 := by linarith
      exact ⟨Real.rpow_nonneg ht0 _,
        Real.rpow_le_one ht0 ht1 (le_of_lt (one_div_pos.mpr hden))⟩
    · have h1t0 : (0:ℝ) ≤ 1 - t := by linarith
      have h1t1 : (1:ℝ) - t ≤ 1 := by linarith
      have hden : (0:ℝ) < 2 * (1 - b) + 0.01 := by linarith
      have hr0 : 0 ≤ (1 - t) ^ ((1:ℝ) / (2 * (1 - b) + 0.01)) :=
        Real.rpow_nonneg h1t0 _
      have hr1 : (1 - t) ^ ((1:ℝ) / (2 * (1 - b) + 0.01)) ≤ 1 :=
        Real.rpow_le_one h1t0 h1t1 (le_of_lt (one_div_pos.mpr hden))
      constructor <;> linarith
    · exact ⟨ht0, ht1⟩
  obtain ⟨hw0, hw1⟩ := hw
  refine ⟨⟨hw0, hw1⟩, ?_, ?_, by linarith, by linarith⟩ <;>
    unfold interpolate_value <;>
    rcases le_total v0 v1 with h | h
  · rw [min_eq_left h]
    nlinarith [mul_nonneg hw0 (sub_nonneg.mpr h)]
  · rw [min_eq_right h]
    nlinarith [mul_nonneg (sub_nonneg.mpr h) (sub_nonneg.mpr hw1)]
  · rw [max_eq_right h]
    nlinarith [mul_nonneg (sub_nonneg.mpr h) (sub_nonneg.mpr hw1)]
  · rw [max_eq_left h]
    nlinarith [mul_nonneg hw0 (sub_nonneg.mpr h)]

/-- Witness for C9 at `v0 = 2`, `v1 = 7`, `t = 1/2`, `b = 0` (an extreme
bias). -/
theorem interpolate_value_weight_bounded_witness :
    (0 ≤ interp_weight (1/2) 0 ∧ interp_weight (1/2) 0 ≤ 1) ∧
    min (2:ℝ) 7 ≤ interpolate_value 2 7 (1/2) 0 ∧
    interpolate_value 2 7 (1/2) 0 ≤ max (2:ℝ) 7 ∧
    (0:ℝ) < 2 * 0 + 0.01 ∧ (0:ℝ) < 2 * (1 - 0) + 0.01 :=
  interpolate_value_weight_bounded 2 7 (1/2) 0 (by norm_num) (by norm_num)
    (by norm_num) (by norm_num)

/-! ## ControlPointPlanner lemmas -/

theorem length_build_intermediate (cp1 cp2 : ControlPointDefinition) (n : ℕ) (bias : ℝ) :
    (build_intermediate_control_points cp1 cp2 n bias).length = n := by
  simp [build_intermediate_control_points]

theorem mem_pairsWrap {α : Type} (l : List α) (p : α × α) (h : p ∈ pairsWrap l) :
    p.1 ∈ l ∧ p.2 ∈ l := by
  obtain ⟨a, b⟩ := p
  cases l with
  | nil => simp [pairsWrap] at h
  | cons x xs =>
    have hz : (a, b) ∈ (x :: xs).zip (xs ++ [x]) := by simpa [pairsWrap] using h
    obtain ⟨h1, h2⟩ := List.of_mem_zip hz
    refine ⟨h1, ?_⟩
    rcases List.mem_append.mp h2 with h2 | h2
    · exact List.mem_cons_of_mem x h2
    · simp only [List.mem_singleton] at h2
      simp [h2]

theorem mem_build_all_cps_sorted (primary : List ControlPointDefinition) (n : ℕ)
    (bias : ℝ) (cp : ControlPointDefinition)
    (h : cp ∈ build_all_cps_sorted primary n bias) :
    cp ∈ primary ∨ ∃ c1 c2, c1 ∈ primary ∧ c2 ∈ primary ∧
      cp ∈ build_intermediate_control_points c1 c2 n bias := by
  unfold build_all_cps_sorted at h
  rw [mem_sortByKey, List.mem_append] at h
  rcases h with h | h
  · exact Or.inl h
  · right
    rw [List.mem_flatten] at h
    obtain ⟨l, hl, hcp⟩ := h
    rw [List.mem_map] at hl
    obtain ⟨pr, hpr, rfl⟩ := hl
    obtain ⟨h1, h2⟩ := mem_pairsWrap primary pr hpr
    exact ⟨pr.1, pr.2, h1, h2, hcp⟩

theorem primary_subset_build_all (primary : List ControlPointDefinition) (n : ℕ)
    (bias : ℝ) (cp : ControlPointDefinition) (h : cp ∈ primary) :
    cp ∈ build_all_control_points primary n bias := by
  have h1 : cp ∈ build_all_cps_sorted primary n bias := by
    unfold build_all_cps_sorted
    rw [mem_sortByKey]
    exact List.mem_append_left _ h
  simp only [build_all_control_points]
  split
  · exact h1
  · split
    · exact h1
    · rw [mem_sortByKey]
      exact List.mem_append_left _ h1

theorem mem_build_all_control_points (primary : List ControlPointDefinition) (n : ℕ)
    (bias : ℝ) (cp : ControlPointDefinition)
    (h : cp ∈ build_all_control_points primary n bias) :
    cp ∈ build_all_cps_sorted primary n bias ∨ cp.param = 1 := by
  simp only [build_all_control_points] at h
  split at h
  · exact Or.inl h
  · split at h
    · exact Or.inl h
    · rw [mem_sortByKey, List.mem_append] at h
      rcases h with h | h
      · exact Or.inl h
      · simp only [List.mem_singleton] at h
        subst h
        exact Or.inr rfl

/-- Claim C3: for every primary list containing a point at param 0.0 and
all intermediate counts and biases, `build_all_control_points` is sorted
by `param`, contains a point at param 0.0, and contains a point whose
param is within 1e-6 of 1.0 (the synthetic closure point being appended
when none exists). -/
theorem build_all_control_points_closure_invariant
    (primary : List ControlPointDefinition) (n : ℕ) (bias : ℝ)
    (h : ∃ cp ∈ primary, cp.param = 0) :
    (build_all_control_points primary n bias).Pairwise (fun a b => a.param ≤ b.param) ∧
    (∃ cp ∈ build_all_control_points primary n bias, cp.param = 0) ∧
    (∃ cp ∈ build_all_control_points primary n bias, |cp.param - 1| < 1/1000000) := by
  obtain ⟨cp0, hcp0, hp0⟩ := h
  have hmem0 : cp0 ∈ build_all_cps_sorted primary n bias := by
    unfold build_all_cps_sorted
    rw [mem_sortByKey]
    exact List.mem_append_left _ hcp0
  have hsorted : (build_all_cps_sorted primary n bias).Pairwise
      (fun a b => a.param ≤ b.param) := by
    unfold build_all_cps_sorted
    exact pairwise_sortByKey _ _
  have hfind : ((build_all_cps_sorted primary n bias).find?
      (fun cp => decide (|cp.param| < (1/1000000 : ℚ)))).isSome := by
    rw [List.find?_isSome]
    refine ⟨cp0, hmem0, ?_⟩
    rw [hp0]
    norm_num
  simp only [build_all_control_points]
  split
  · rename_i heq
    rw [heq] at hfind
    simp at hfind
  · rename_i entry_cp heq
    by_cases hany : (build_all_cps_sorted primary n bias).any
        (fun cp => decide (|cp.param - 1| < (1/1000000 : ℚ)))
    · rw [if_pos hany]
      refine ⟨hsorted, ⟨cp0, hmem0, hp0⟩, ?_⟩
      obtain ⟨c, hc, hcd⟩ := List.any_eq_true.mp hany
      exact ⟨c, hc, of_decide_eq_true hcd⟩
    · rw [if_neg hany]
      refine ⟨pairwise_sortByKey _ _, ⟨cp0, ?_, hp0⟩, ?_⟩
      · rw [mem_sortByKey]
        exact List.mem_append_left _ hmem0
      · refine ⟨⟨"closure", 1, entry_cp.angle_dome, entry_cp.angle_bowl,
          entry_cp.mag_dome, entry_cp.mag_bowl⟩, ?_, ?_⟩
        · rw [mem_sortByKey]
          apply List.mem_append_right
          simp
        · norm_num

/-- Witness for C3: the concrete primary list `primaryW`, no
intermediates, bias 1/2. -/
theorem build_all_control_points_closure_invariant_witness :
    (build_all_control_points primaryW 0 (1/2)).Pairwise (fun a b => a.param ≤ b.param) ∧
    (∃ cp ∈ build_all_control_points primaryW 0 (1/2), cp.param = 0) ∧
    (∃ cp ∈ build_all_control_points primaryW 0 (1/2), |cp.param - 1| < 1/1000000) :=
  build_all_control_points_closure_invariant primaryW 0 (1/2)
    ⟨mkCPD "entry" 0 pp0, by simp [primaryW], rfl⟩

/-- Claim C6: with `include_A = include_B = False` the primaries are
exactly entry (param 0) and exit (at the exit parameter), each of the two
segments (wrap included) receives exactly `n` interpolated points, and the
full pre-closure list has exactly `2 + 2n` control points. -/
theorem planner_count_no_AB (exit_param A_position B_position : ℚ)
    (pe pa pb px : PointParams) (n : ℕ) (bias : ℝ) (h : 0 ≤ exit_param) :
    build_primary_control_points exit_param A_position B_position false false pe pa pb px =
      [mkCPD "entry" 0 pe, mkCPD "exit" exit_param px] ∧
    (build_intermediate_control_points (mkCPD "entry" 0 pe)
      (mkCPD "exit" exit_param px) n bias).length = n ∧
    (build_intermediate_control_points (mkCPD "exit" exit_param px)
      (mkCPD "entry" 0 pe) n bias).length = n ∧
    (build_all_cps_sorted (build_primary_control_points exit_param A_position B_position
      false false pe pa pb px) n bias).length = 2 + 2 * n := by
  have hnl : ¬ ((mkCPD "exit" exit_param px).param < (mkCPD "entry" 0 pe).param) := by
    simp only [mkCPD]
    exact not_lt.mpr h
  have hprim : build_primary_control_points exit_param A_position B_position
      false false pe pa pb px = [mkCPD "entry" 0 pe, mkCPD "exit" exit_param px] := by
    unfold build_primary_control_points sortByKey
    simp only [Bool.false_eq_true, if_false, List.nil_append, List.singleton_append,
      List.foldl_cons, List.foldl_nil, insertSorted_nil, insertSorted_cons]
    rw [if_neg hnl]
  refine ⟨hprim, length_build_intermediate _ _ n bias, length_build_intermediate _ _ n bias, ?_⟩
  rw [hprim]
  unfold build_all_cps_sorted
  rw [length_sortByKey, List.length_append]
  simp [pairsWrap, length_build_intermediate]
  omega

/-- Witness for C6 at `exit_param = 2/5`, `n = 1`. -/
theorem planner_count_no_AB_witness :
    build_primary_control_points (2/5) (33/100) (66/100) false false pp0 pp0 pp0 pp0 =
      [mkCPD "entry" 0 pp0, mkCPD "exit" (2/5) pp0] ∧
    (build_intermediate_control_points (mkCPD "entry" 0 pp0)
      (mkCPD "exit" (2/5) pp0) 1 (1/2)).length = 1 ∧
    (build_intermediate_control_points (mkCPD "exit" (2/5) pp0)
      (mkCPD "entry" 0 pp0) 1 (1/2)).length = 1 ∧
    (build_all_cps_sorted (build_primary_control_points (2/5) (33/100) (66/100)
      false false pp0 pp0 pp0 pp0) 1 (1/2)).length = 2 + 2 * 1 :=
  planner_count_no_AB (2/5) (33/100) (66/100) pp0 pp0 pp0 pp0 1 (1/2) (by norm_num)

/-- Claim C7: with `exit_param = 0.4`, `B_position = 0.66` and
`include_B = True`, the planner places `B` at param `0.264 = 33/125` and
`B_mirror` at param `0.796 = 199/250`. -/
theorem mirror_point_placement (A_position : ℚ) (iA : Bool)
    (pe pa pb px : PointParams) :
    (∃ cp ∈ build_primary_control_points (2/5) A_position (33/50) iA true pe pa pb px,
      cp.name = "B" ∧ cp.param = 33/125) ∧
    (∃ cp ∈ build_primary_control_points (2/5) A_position (33/50) iA true pe pa pb px,
      cp.name = "B_mirror" ∧ cp.param = 199/250) := by
  have hB : mkCPD "B" ((33/50) * (2/5)) pb ∈
      build_primary_control_points (2/5) A_position (33/50) iA true pe pa pb px := by
    unfold build_primary_control_points
    rw [mem_sortByKey]
    cases iA <;> simp
  have hBm : mkCPD "B_mirror" ((2/5) + (1 - 2/5) * (33/50)) pb ∈
      build_primary_control_points (2/5) A_position (33/50) iA true pe pa pb px := by
    unfold build_primary_control_points
    rw [mem_sortByKey]
    cases iA <;> simp
  exact ⟨⟨_, hB, rfl, by norm_num [mkCPD]⟩, ⟨_, hBm, rfl, by norm_num [mkCPD]⟩⟩

theorem param_bounds_build_intermediate (cp1 cp2 : ControlPointDefinition)
    (n : ℕ) (bias : ℝ) (cp : ControlPointDefinition)
    (h : cp ∈ build_intermediate_control_points cp1 cp2 n bias)
    (h1 : 0 ≤ cp1.param) (h2 : cp1.param ≤ 1)
    (h3 : 0 ≤ cp2.param) (h4 : cp2.param ≤ 1) :
    0 ≤ cp.param ∧ cp.param ≤ 1 := by
  unfold build_intermediate_control_points at h
  rw [List.mem_map] at h
  obtain ⟨j, hj, rfl⟩ := h
  rw [List.mem_range] at hj
  simp only
  set t : ℚ := ((j + 1 : ℕ) : ℚ) / ((n : ℚ) + 1) with ht
  have htpos : 0 < t := by
    apply div_pos
    · exact_mod_cast Nat.succ_pos j
    · positivity
  have htle : t ≤ 1 := by
    rw [ht, div_le_one (by positivity)]
    have : (j : ℚ) + 1 ≤ (n : ℚ) + 1 := by
      have := hj
      exact_mod_cast Nat.succ_le_succ (le_of_lt hj)
    exact_mod_cast this
  split
  · -- wrapping branch with clamping
    split
    · norm_num
    · split
      · exact ⟨h1, h2⟩
      · rename_i hn1 hnlt
        constructor
        · nlinarith [not_lt.mp hnlt]
        · exact not_lt.mp hn1
  · -- plain interpolation between cp1 and cp2
    rename_i hnw
    rw [decide_eq_true_eq] at hnw
    have hle : cp1.param ≤ cp2.param := not_lt.mp hnw
    constructor
    · nlinarith [mul_nonneg (sub_nonneg.mpr hle) htpos.le]
    · nlinarith [mul_nonneg (sub_nonneg.mpr hle) (sub_nonneg.mpr htle)]

/-- Claim C10: under the preconditions `exit_param, A_position,
B_position ∈ [0,1]`, every control point the planner produces (primary,
intermediate, or closure) has `param ∈ [0,1]`. -/
theorem planner_params_in_unit_interval (exit_param A_position B_position : ℚ)
    (iA iB : Bool) (pe pa pb px : PointParams) (n : ℕ) (bias : ℝ)
    (cp : ControlPointDefinition)
    (hmem : cp ∈ build_all_control_points (build_primary_control_points exit_param
      A_position B_position iA iB pe pa pb px) n bias)
    (he0 : 0 ≤ exit_param) (he1 : exit_param ≤ 1)
    (hA0 : 0 ≤ A_position) (hA1 : A_position ≤ 1)
    (hB0 : 0 ≤ B_position) (hB1 : B_position ≤ 1) :
    0 ≤ cp.param ∧ cp.param ≤ 1 := by
  have hprimary : ∀ c ∈ build_primary_control_points exit_param A_position B_position
      iA iB pe pa pb px, 0 ≤ c.param ∧ c.param ≤ 1 := by
    intro c hc
    unfold build_primary_control_points at hc
    rw [mem_sortByKey] at hc
    cases iA <;> cases iB <;>
      simp only [Bool.false_eq_true, if_false, eq_self_iff_true, if_true,
        List.mem_append, List.mem_singleton, List.mem_cons, List.not_mem_nil,
        or_false, false_or] at hc <;>
      casesm* _ ∨ _ <;> subst_vars <;>
      constructor <;> simp only [mkCPD] <;> nlinarith
  rcases mem_build_all_control_points _ _ _ _ hmem with h | h
  · rcases mem_build_all_cps_sorted _ _ _ _ h with h | ⟨c1, c2, hc1, hc2, h⟩
    · exact hprimary _ h
    · obtain ⟨hb1, hb2⟩ := hprimary _ hc1
      obtain ⟨hb3, hb4⟩ := hprimary _ hc2
      exact param_bounds_build_intermediate c1 c2 n bias cp h hb1 hb2 hb3 hb4
  · rw [h]
    norm_num

/-- Witness for C10: the entry point of a concrete run with
`exit_param = 2/5`. -/
theorem planner_params_in_unit_interval_witness :
    0 ≤ (mkCPD "entry" 0 pp0).param ∧ (mkCPD "entry" 0 pp0).param ≤ 1 :=
  planner_params_in_unit_interval (2/5) (33/100) (66/100) true true pp0 pp0 pp0 pp0
    0 (1/2) (mkCPD "entry" 0 pp0)
    (primary_subset_build_all _ 0 (1/2) _ (by
      unfold build_primary_control_points
      rw [mem_sortByKey]
      simp))
    (by norm_num) (by norm_num) (by norm_num) (by norm_num) (by norm_num) (by norm_num)

/-! ## PlaneIntersector lemmas -/

theorem sortByKey_ne_nil {α : Type} (key : α → ℚ) (l : List α) (h : l ≠ []) :
    sortByKey key l ≠ [] := by
  intro hc
  apply h
  have := length_sortByKey key l
  rw [hc] at this
  exact List.length_eq_zero.mp this.symm

theorem extremes_of_sortByKey {α : Type} (key : α → ℚ) (l : List α) (h : l ≠ []) :
    ∃ e x, (sortByKey key l).getLast? = some e ∧ (sortByKey key l).head? = some x := by
  have hs := sortByKey_ne_nil key l h
  cases hl : (sortByKey key l).getLast? with
  | none => exact absurd (List.getLast?_eq_none_iff.mp hl) hs
  | some e =>
    cases hh : (sortByKey key l).head? with
    | none => exact absurd (List.head?_eq_none_iff.mp hh) hs
    | some x => exact ⟨e, x, rfl, rfl⟩

theorem fallback_candidates_ne_nil (c : Curve) : fallback_candidates c ≠ [] := by
  have h36 : (sample_params c).length = 36 := by
    unfold sample_params
    rw [List.length_map, List.length_range]
  have hzip : (((sample_params c).map c.pointAt).zip (sample_params c)).length = 36 := by
    rw [List.length_zip, List.length_map, h36]
    simp
  simp only [fallback_candidates]
  split
  · intro hc2
    rw [hc2] at hzip
    simp at hzip
  · rename_i hlen
    intro hc2
    rw [hc2] at hlen
    simp at hlen

/-- Claim C1, counterexample: on a perfectly samplable curve, a kernel
answer consisting of one overlap event (no point events) makes
`find_yz_plane_intersections` return no result, although the 36-point
sampling of the curve is nonempty. -/
theorem find_yz_overlap_counterexample :
    find_yz_plane_intersections overlapEvents (some sampleCurve) = none ∧
    (sample_params sampleCurve).length = 36 := by
  constructor
  · rfl
  · rfl

/-- Claim C1, amended: the finder returns no result exactly when the curve
is null, or when the kernel reports a nonempty intersection-event list
containing no point events; in particular, whenever the kernel reports no
events at all, the 36-sample fallback always yields an entry and an
exit. -/
theorem find_yz_none_iff (curvePlane : Curve → List IntersectionEvent) (c : Curve) :
    find_yz_plane_intersections curvePlane none = none ∧
    (find_yz_plane_intersections curvePlane (some c) = none ↔
      curvePlane c ≠ [] ∧ (curvePlane c).filter (fun ev => ev.isPoint) = []) := by
  refine ⟨rfl, ?_⟩
  simp only [find_yz_plane_intersections]
  by_cases hemp : (curvePlane c).isEmpty
  · rw [if_pos hemp]
    have hne : curvePlane c = [] := List.isEmpty_iff.mp hemp
    obtain ⟨e, x, hl, hh⟩ :=
      extremes_of_sortByKey (fun pr => pr.1.y) _ (fallback_candidates_ne_nil c)
    rw [hl, hh]
    constructor
    · intro h
      simp at h
    · rintro ⟨h1, _⟩
      exact absurd hne h1
  · rw [if_neg hemp]
    have hnil : curvePlane c ≠ [] := fun hc2 => by
      rw [hc2] at hemp
      simp at hemp
    by_cases hf : (((curvePlane c).filter (fun ev => ev.isPoint)).map
        (fun ev => (ev.pointA, ev.paramA))).length = 0
    · rw [if_pos hf]
      simp only [true_iff]
      refine ⟨hnil, ?_⟩
      rw [List.length_map] at hf
      exact List.length_eq_zero.mp hf
    · rw [if_neg hf]
      obtain ⟨e, x, hl, hh⟩ := extremes_of_sortByKey (fun pr => pr.1.y)
        (((curvePlane c).filter (fun ev => ev.isPoint)).map (fun ev => (ev.pointA, ev.paramA)))
        (fun hc2 => hf (by rw [hc2]; rfl))
      rw [hl, hh]
      constructor
      · intro h
        simp at h
      · rintro ⟨_, hfe⟩
        exact absurd (by rw [List.length_map, hfe]; rfl) hf

/-! ## RailAligner lemmas -/

theorem setDomain01_tangent0 (c : Curve) :
    (setDomain01 c).tangentAt 0 = c.tangentAt c.domain.1 := by
  show c.tangentAt (paramAt c.domain 0) = c.tangentAt c.domain.1
  congr 1
  unfold paramAt
  ring

theorem dotQ_projXY_negQ (u v : VecQ) :
    dotQ (projXY u) (projXY (negQ v)) = -dotQ (projXY u) (projXY v) := by
  simp only [dotQ, projXY, negQ]
  ring

theorem reversed_rail_tangent0 (bowl_rail : Curve)
    (hseam : bowl_rail.tangentAt bowl_rail.domain.2 = bowl_rail.tangentAt bowl_rail.domain.1) :
    (setDomain01 (reverseCurve (setDomain01 bowl_rail))).tangentAt 0 =
      negQ (bowl_rail.tangentAt bowl_rail.domain.1) := by
  show negQ ((setDomain01 bowl_rail).tangentAt
      ((setDomain01 bowl_rail).domain.1 + (setDomain01 bowl_rail).domain.2 -
        paramAt (reverseCurve (setDomain01 bowl_rail)).domain 0)) = _
  have harg : (setDomain01 bowl_rail).domain.1 + (setDomain01 bowl_rail).domain.2 -
      paramAt (reverseCurve (setDomain01 bowl_rail)).domain 0 = 1 := by
    show (0 : ℚ) + 1 - (0 + (1 - 0) * 0) = 1
    ring
  rw [harg]
  show negQ (bowl_rail.tangentAt (paramAt bowl_rail.domain 1)) = _
  have harg2 : paramAt bowl_rail.domain 1 = bowl_rail.domain.2 := by
    unfold paramAt
    ring
  rw [harg2, hseam]

/-- Claim C2: after the rail-alignment stage (domain normalization plus the
conditional reversal of the bowl rail), both rails have domain `[0,1]` and
the XY-projections of the two start tangents have non-negative dot product
(`Unitize` rescales by a positive factor or fixes the zero vector, so the
dot of the unitized projections has the same sign).  The bowl rail is
assumed tangent-continuous across its closed seam, which is what makes the
tangent of the reversed rail at the new start the negation of the tangent
at the old start. -/
theorem rail_align_stage_invariant (dome_rail bowl_rail : Curve)
    (hseam : bowl_rail.tangentAt bowl_rail.domain.2 = bowl_rail.tangentAt bowl_rail.domain.1) :
    (rail_align_stage dome_rail bowl_rail).1.domain = (0, 1) ∧
    (rail_align_stage dome_rail bowl_rail).2.1.domain = (0, 1) ∧
    0 ≤ dotQ (projXY ((rail_align_stage dome_rail bowl_rail).1.tangentAt 0))
      (projXY ((rail_align_stage dome_rail bowl_rail).2.1.tangentAt 0)) := by
  simp only [rail_align_stage, align_rails]
  split_ifs with hneg
  · refine ⟨rfl, rfl, ?_⟩
    show 0 ≤ dotQ (projXY ((setDomain01 dome_rail).tangentAt 0))
      (projXY ((setDomain01 (reverseCurve (setDomain01 bowl_rail))).tangentAt 0))
    rw [reversed_rail_tangent0 bowl_rail hseam, dotQ_projXY_negQ, setDomain01_tangent0]
    rw [show (setDomain01 dome_rail).domain.1 = (0 : ℚ) from rfl,
      show (setDomain01 bowl_rail).domain.1 = (0 : ℚ) from rfl,
      setDomain01_tangent0, setDomain01_tangent0] at hneg
    linarith
  · refine ⟨rfl, rfl, ?_⟩
    show 0 ≤ dotQ (projXY ((setDomain01 dome_rail).tangentAt 0))
      (projXY ((setDomain01 bowl_rail).tangentAt 0))
    rw [show (setDomain01 dome_rail).domain.1 = (0 : ℚ) from rfl,
      show (setDomain01 bowl_rail).domain.1 = (0 : ℚ) from rfl] at hneg
    exact not_lt.mp hneg

/-- Witness for C2 at two concrete rails with opposed start tangents (the
reversal branch fires). -/
theorem rail_align_stage_invariant_witness :
    (rail_align_stage domeRailW bowlRailW).1.domain = (0, 1) ∧
    (rail_align_stage domeRailW bowlRailW).2.1.domain = (0, 1) ∧
    0 ≤ dotQ (projXY ((rail_align_stage domeRailW bowlRailW).1.tangentAt 0))
      (projXY ((rail_align_stage domeRailW bowlRailW).2.1.tangentAt 0)) :=
  rail_align_stage_invariant domeRailW bowlRailW rfl

/-! ## Error-path lemmas for the main pipeline -/

theorem strHasPrefix_append_right (p s t : String) (h : strHasPrefix p s) :
    strHasPrefix p (s ++ t) := by
  obtain ⟨r, hr⟩ := h
  refine ⟨r ++ t.data, ?_⟩
  rw [String.data_append, hr, List.append_assoc]

theorem build_sections_nil (k : Kernel) : build_sections k [] = .ok [] := rfl

theorem build_sections_cons (k : Kernel) (r : ResolvedCP) (rs : List ResolvedCP) :
    build_sections k (r :: rs) =
      match section_of r with
      | none => build_sections k rs
      | some bezier =>
        if k.bezierValid bezier then
          match build_sections k rs with
          | .ok sections => .ok (bezier :: sections)
          | .error (msg, built) => .error (msg, bezier :: built)
        else
          .error ("ERROR: Invalid bezier curve at " ++ r.cp.name, []) := rfl

/-- The message carried by a failing cross-section build is always an
`ERROR:` message. -/
theorem build_sections_error_msg (k : Kernel) (rs : List ResolvedCP)
    (msg : String) (built : List CrossSection)
    (h : build_sections k rs = .error (msg, built)) :
    strHasPrefix "ERROR:" msg := by
  induction rs generalizing built with
  | nil => simp [build_sections_nil] at h
  | cons r rs ih =>
    rw [build_sections_cons] at h
    split at h
    · exact ih built h
    · split at h
      · split at h
        · simp at h
        · rename_i msg' built' heq
          rw [Except.error.injEq, Prod.mk.injEq] at h
          obtain ⟨rfl, -⟩ := h
          exact ih built' heq
      · rw [Except.error.injEq, Prod.mk.injEq] at h
        obtain ⟨rfl, -⟩ := h
        exact strHasPrefix_append_right _ _ _ ⟨" Invalid bezier curve at ".data, by decide⟩

/-- The loft stage returns either a surface after the `SUCCESS` message or
no surface after an `ERROR:` message. -/
theorem sweep_stage_spec (k : Kernel) (a : Args) (dr br : Curve)
    (secs : List CrossSection) :
    ((sweep_stage k a dr br secs).1 = none →
      ∃ w ∈ (sweep_stage k a dr br secs).2, strHasPrefix "ERROR:" w) ∧
    (∀ s, (sweep_stage k a dr br secs).1 = some s →
      ∃ w ∈ (sweep_stage k a dr br secs).2, strHasPrefix "SUCCESS" w) := by
  simp only [sweep_stage]
  split
  · refine ⟨fun _ => ⟨"ERROR: Sweep 2 Rails failed", by simp,
      ⟨" Sweep 2 Rails failed".data, by decide⟩⟩, fun s hs => ?_⟩
    simp at hs
  · split
    · refine ⟨fun _ => ⟨"ERROR: Sweep result has no faces", by simp,
        ⟨" Sweep result has no faces".data, by decide⟩⟩, fun s hs => ?_⟩
      simp at hs
    · split
      · refine ⟨fun _ => ⟨"ERROR: Failed to extract NURBS surface from sweep", by simp,
          ⟨" Failed to extract NURBS surface from sweep".data, by decide⟩⟩, fun s hs => ?_⟩
        simp at hs
      · rename_i belt_surface heq
        split
        · split
          · refine ⟨fun hn => ?_, fun s hs =>
              ⟨"SUCCESS: Surface created, IsValid = " ++ toString belt_surface.isValid,
                by simp, strHasPrefix_append_right _ _ _
                  ⟨": Surface created, IsValid = ".data, by decide⟩⟩⟩
            simp at hn
          · refine ⟨fun hn => ?_, fun s hs =>
              ⟨"SUCCESS: Surface created, IsValid = " ++ toString belt_surface.isValid,
                by simp, strHasPrefix_append_right _ _ _
                  ⟨": Surface created, IsValid = ".data, by decide⟩⟩⟩
            simp at hn
          · refine ⟨fun hn => ?_, fun s hs =>
              ⟨"SUCCESS: Surface created, IsValid = " ++ toString belt_surface.isValid,
                by simp, strHasPrefix_append_right _ _ _
                  ⟨": Surface created, IsValid = ".data, by decide⟩⟩⟩
            simp at hn
        · refine ⟨fun hn => ?_, fun s hs =>
            ⟨"SUCCESS: Surface created, IsValid = " ++ toString belt_surface.isValid,
              by simp, strHasPrefix_append_right _ _ _
                ⟨": Surface created, IsValid = ".data, by decide⟩⟩⟩
          simp at hn

/-- Steps 6-9: either a surface with the `SUCCESS` message logged, or no
surface with an `ERROR:` message logged. -/
theorem belt_from_cps_spec (k : Kernel) (a : Args) (dr br : Curve) (be : ℚ)
    (cps : List ControlPointDefinition) (ws : List String) :
    ((belt_from_cps k a dr br be cps ws).surface = none →
      ∃ w ∈ (belt_from_cps k a dr br be cps ws).warnings, strHasPrefix "ERROR:" w) ∧
    (∀ s, (belt_from_cps k a dr br be cps ws).surface = some s →
      ∃ w ∈ (belt_from_cps k a dr br be cps ws).warnings, strHasPrefix "SUCCESS" w) := by
  simp only [belt_from_cps]
  split
  · rename_i me heq
    refine ⟨fun _ => ⟨me.1, by simp, ?_⟩, fun s hs => ?_⟩
    · exact build_sections_error_msg k _ me.1 me.2 (by rw [heq])
    · simp at hs
  · rename_i cs heq
    obtain ⟨h1, h2⟩ := sweep_stage_spec k a dr br cs
    refine ⟨fun hn => ?_, fun s hs => ?_⟩
    · obtain ⟨w, hw, hp⟩ := h1 hn
      exact ⟨w, List.mem_append_right _ hw, hp⟩
    · obtain ⟨w, hw, hp⟩ := h2 s hs
      exact ⟨w, List.mem_append_right _ hw, hp⟩

/-- Claim C4: on every terminal error the pipeline returns a null surface
together with the warnings accumulated up to the failure (the last of
which is the `ERROR:` diagnostic of the failing stage), and a surface is
only returned when the whole pipeline reached the `SUCCESS` point — there
is no partial-surface output on any error path. -/
theorem generate_belt_surface_error_paths (k : Kernel) (dome bowl : Option BrepSurface)
    (a : Args) :
    ((generate_belt_surface k dome bowl a).surface = none →
      ∃ w ∈ (generate_belt_surface k dome bowl a).warnings, strHasPrefix "ERROR:" w) ∧
    (∀ s, (generate_belt_surface k dome bowl a).surface = some s →
      ∃ w ∈ (generate_belt_surface k dome bowl a).warnings, strHasPrefix "SUCCESS" w) := by
  simp only [generate_belt_surface]
  split
  · split
    · split
      · exact belt_from_cps_spec k a _ _ _ _ _
      · refine ⟨fun _ =>
          ⟨"ERROR: Could not find YZ plane exit intersections after reordering", by simp,
            ⟨" Could not find YZ plane exit intersections after reordering".data, by decide⟩⟩,
          fun s hs => ?_⟩
        simp at hs
    · refine ⟨fun _ => ⟨"ERROR: Could not find YZ plane intersections", by simp,
        ⟨" Could not find YZ plane intersections".data, by decide⟩⟩, fun s hs => ?_⟩
      simp at hs
  · refine ⟨fun _ => ⟨"ERROR: Could not extract trim curves from surfaces", by simp,
      ⟨" Could not extract trim curves from surfaces".data, by decide⟩⟩, fun s hs => ?_⟩
    simp at hs

/-- Witness for C4 at a concrete kernel and missing input surfaces. -/
theorem generate_belt_surface_error_paths_witness :
    ((generate_belt_surface kernel0 none none args0).surface = none →
      ∃ w ∈ (generate_belt_surface kernel0 none none args0).warnings,
        strHasPrefix "ERROR:" w) ∧
    (∀ s, (generate_belt_surface kernel0 none none args0).surface = some s →
      ∃ w ∈ (generate_belt_surface kernel0 none none args0).warnings,
        strHasPrefix "SUCCESS" w) :=
  generate_belt_surface_error_paths kernel0 none none args0

/-! ## Non-fatal closest-point failure (step 6) -/

/-- The step-6 body for a non-landmark control point whose closest-point
query fails: `continue` with an error warning, leaving the point
unresolved. -/
theorem resolve_control_point_closest_fail (k : Kernel) (dr br : Curve) (be : ℚ)
    (cp : ControlPointDefinition)
    (h1 : cp.name ≠ "entry") (h2 : cp.name ≠ "exit") (h3 : cp.name ≠ "closure")
    (h4 : k.closestPoint br (dr.pointAt (paramAt dr.domain cp.param)) = none) :
    resolve_control_point k dr br be cp =
      (⟨cp, dr.pointAt (paramAt dr.domain cp.param), none, none, none⟩,
        ["ERROR: Could not find closest bowl point for " ++ cp.name], []) := by
  simp only [resolve_control_point, if_neg h1, if_neg h2, if_neg h3, h4]

theorem build_sections_skip (k : Kernel) (l1 l2 : List ResolvedCP) (r : ResolvedCP)
    (h : section_of r = none) :
    build_sections k (l1 ++ r :: l2) = build_sections k (l1 ++ l2) := by
  induction l1 with
  | nil =>
    rw [List.nil_append, List.nil_append, build_sections_cons, h]
  | cons x xs ih =>
    rw [List.cons_append, List.cons_append, build_sections_cons, build_sections_cons, ih]

/-- Claim C8: if the closest-point resolution fails for a control point
not named entry/exit/closure, the run does not abort: the point keeps no
bowl point, the error string is logged, no cross-section is built for it
(the section list — and hence the surface outcome — is the same as if the
point were absent), and the pipeline continues to the sweep. -/
theorem closest_point_failure_nonfatal (k : Kernel) (a : Args) (dr br : Curve) (be : ℚ)
    (l1 l2 : List ControlPointDefinition) (cp : ControlPointDefinition) (ws : List String)
    (h1 : cp.name ≠ "entry") (h2 : cp.name ≠ "exit") (h3 : cp.name ≠ "closure")
    (h4 : k.closestPoint br (dr.pointAt (paramAt dr.domain cp.param)) = none) :
    ("ERROR: Could not find closest bowl point for " ++ cp.name) ∈
      (belt_from_cps k a dr br be (l1 ++ cp :: l2) ws).warnings ∧
    (resolve_control_point k dr br be cp).1.bowl_point = none ∧
    (belt_from_cps k a dr br be (l1 ++ cp :: l2) ws).surface =
      (belt_from_cps k a dr br be (l1 ++ l2) ws).surface ∧
    (belt_from_cps k a dr br be (l1 ++ cp :: l2) ws).debug_curves =
      (belt_from_cps k a dr br be (l1 ++ l2) ws).debug_curves := by
  have hres := resolve_control_point_closest_fail k dr br be cp h1 h2 h3 h4
  have hfail1 : (resolve_control_point k dr br be cp).1 =
      ⟨cp, dr.pointAt (paramAt dr.domain cp.param), none, none, none⟩ := by
    rw [hres]
  have hsec : section_of (resolve_control_point k dr br be cp).1 = none := by
    rw [hfail1]
    rfl
  have hmap1 : (resolve_all k dr br be (l1 ++ cp :: l2)).1 =
      l1.map ((fun r => r.1) ∘ resolve_control_point k dr br be) ++
      (resolve_control_point k dr br be cp).1 ::
      l2.map ((fun r => r.1) ∘ resolve_control_point k dr br be) := by
    simp [resolve_all]
  have hmap2 : (resolve_all k dr br be (l1 ++ l2)).1 =
      l1.map ((fun r => r.1) ∘ resolve_control_point k dr br be) ++
      l2.map ((fun r => r.1) ∘ resolve_control_point k dr br be) := by
    simp [resolve_all]
  have hbs : build_sections k (resolve_all k dr br be (l1 ++ cp :: l2)).1 =
      build_sections k (resolve_all k dr br be (l1 ++ l2)).1 := by
    rw [hmap1, hmap2, build_sections_skip k _ _ _ hsec]
  have hwmem : ("ERROR: Could not find closest bowl point for " ++ cp.name) ∈
      (resolve_all k dr br be (l1 ++ cp :: l2)).2.1 := by
    simp only [resolve_all]
    refine List.mem_flatten.mpr
      ⟨["ERROR: Could not find closest bowl point for " ++ cp.name], ?_, by simp⟩
    rw [List.map_map, List.mem_map]
    refine ⟨cp, by simp, ?_⟩
    show ((resolve_control_point k dr br be cp).2.1) = _
    rw [hres]
  refine ⟨?_, by rw [hfail1], ?_, ?_⟩
  · simp only [belt_from_cps]
    split
    · exact List.mem_append_left _ (List.mem_append_right _ hwmem)
    · exact List.mem_append_left _ (List.mem_append_right _ hwmem)
  · simp only [belt_from_cps]
    rw [hbs]
    cases hS : build_sections k (resolve_all k dr br be (l1 ++ l2)).1 <;> rfl
  · simp only [belt_from_cps]
    rw [hbs]
    cases hS : build_sections k (resolve_all k dr br be (l1 ++ l2)).1 <;> rfl

/-- Witness for C8: a concrete run whose kernel closest-point query always
fails, on the single non-landmark control point `cpA`. -/
theorem closest_point_failure_nonfatal_witness :
    ("ERROR: Could not find closest bowl point for " ++ cpA.name) ∈
      (belt_from_cps kernel0 args0 domeRailW bowlRailW (1/2) ([] ++ cpA :: []) []).warnings ∧
    (resolve_control_point kernel0 domeRailW bowlRailW (1/2) cpA).1.bowl_point = none ∧
    (belt_from_cps kernel0 args0 domeRailW bowlRailW (1/2) ([] ++ cpA :: []) []).surface =
      (belt_from_cps kernel0 args0 domeRailW bowlRailW (1/2) ([] ++ [])  []).surface ∧
    (belt_from_cps kernel0 args0 domeRailW bowlRailW (1/2) ([] ++ cpA :: []) []).debug_curves =
      (belt_from_cps kernel0 args0 domeRailW bowlRailW (1/2) ([] ++ []) []).debug_curves :=
  closest_point_failure_nonfatal kernel0 args0 domeRailW bowlRailW (1/2) [] [] cpA []
    (by decide) (by decide) (by decide) rfl

end BeltGen
